import Mathlib

/-
Shallow embedding of the two event-processing steps of the repository
(src/backend/src/steps/events/classify_message_step.py and
src/backend/src/steps/events/extract_inquiry_step.py) and proofs about them.

Modelling conventions:
- Python/JSON values are the inductive JVal; Python None and JSON null are
  both JVal.null; a Python dict is an association list JObj with unique keys.
- An event payload (input_data) is a JObj; dict.get k, which yields None both
  for an absent key and for a key bound to None, is pyGet; dict.get k d with
  an explicit default is pyGetD; dict assignment is oset.
- The external completion call together with json.loads on its content is one
  environment value SvcResult: raises (an exception escaping from inside the
  try block of the handler, carrying its message), parseError (content that
  json.loads rejects, carrying the decode-error message), or parsed (content
  that json.loads turns into the given JSON object).
- The external keyed store, collection named inquiries, is Store, a function
  from the key value to an optional record; context.state.set is stSet. The
  code touches no other collection, so the collection name is left implicit.
- datetime.datetime.now().isoformat() is the parameter now.
- context.emit is modelled as appending an Event to the emitted list.
- Logging is modelled as effect-free except where a log line can itself raise
  and thereby change control flow. Those places are modelled explicitly: the
  body-preview slice at classify_message_step.py line 57, the sender.get call
  at line 49 of classify and line 50 of extract, the percent-format and join
  of parsed values at classify lines 131 and 133, and the chained .get and
  len calls on parsed values at extract lines 120 to 126. The text of such an
  exception is approximated by a fixed string (CPython wording is not
  reproduced); no statement below depends on that text.
- Prompt construction, model identifier and sampling temperature only shape
  the request sent to the external completion service, which is already an
  environment parameter here, so they are not modelled.
-/

namespace SocialOps

/-- JSON/Python value: null, bool, number, string, array, object. -/
inductive JVal where
  | null : JVal
  | b : Bool → JVal
  | n : Rat → JVal
  | s : String → JVal
  | arr : List JVal → JVal
  | obj : List (String × JVal) → JVal

/-- A Python dict with string keys, as an association list. -/
abbrev JObj := List (String × JVal)

mutual

/-- Structural equality test on JVal (the derived instance is unavailable for
this nested inductive, so it is spelled out). -/
def JVal.beq : JVal → JVal → Bool
  | .null, .null => true
  | .b x, .b y => x == y
  | .n x, .n y => x == y
  | .s x, .s y => x == y
  | .arr xs, .arr ys => JVal.beqArr xs ys
  | .obj xs, .obj ys => JVal.beqObj xs ys
  | _, _ => false

/-- Elementwise equality test on arrays of JVal. -/
def JVal.beqArr : List JVal → List JVal → Bool
  | [], [] => true
  | x :: xs, y :: ys => JVal.beq x y && JVal.beqArr xs ys
  | _, _ => false

/-- Elementwise equality test on objects. -/
def JVal.beqObj : List (String × JVal) → List (String × JVal) → Bool
  | [], [] => true
  | (k1, v1) :: xs, (k2, v2) :: ys => k1 == k2 && JVal.beq v1 v2 && JVal.beqObj xs ys
  | _, _ => false

end

mutual

/-- Reflexivity of the equality test. -/
def JVal.beq_refl : ∀ a, JVal.beq a a = true
  | .null => rfl
  | .b _ => by simp [JVal.beq]
  | .n _ => by simp [JVal.beq]
  | .s _ => by simp [JVal.beq]
  | .arr xs => by simpa [JVal.beq] using JVal.beqArr_refl xs
  | .obj xs => by simpa [JVal.beq] using JVal.beqObj_refl xs

/-- Reflexivity of the array equality test. -/
def JVal.beqArr_refl : ∀ xs, JVal.beqArr xs xs = true
  | [] => rfl
  | x :: xs => by
      simp only [JVal.beqArr, Bool.and_eq_true]
      exact ⟨JVal.beq_refl x, JVal.beqArr_refl xs⟩

/-- Reflexivity of the object equality test. -/
def JVal.beqObj_refl : ∀ xs, JVal.beqObj xs xs = true
  | [] => rfl
  | (_, v) :: xs => by
      simp only [JVal.beqObj, Bool.and_eq_true, beq_self_eq_true, true_and]
      exact ⟨JVal.beq_refl v, JVal.beqObj_refl xs⟩

end

mutual

/-- Soundness of the equality test. -/
def JVal.eq_of_beq : ∀ a b, JVal.beq a b = true → a = b
  | .null, .null, _ => rfl
  | .null, .b _, h => by simp [JVal.beq] at h
  | .null, .n _, h => by simp [JVal.beq] at h
  | .null, .s _, h => by simp [JVal.beq] at h
  | .null, .arr _, h => by simp [JVal.beq] at h
  | .null, .obj _, h => by simp [JVal.beq] at h
  | .b _, .null, h => by simp [JVal.beq] at h
  | .b _, .b _, h => by simp [JVal.beq] at h; rw [h]
  | .b _, .n _, h => by simp [JVal.beq] at h
  | .b _, .s _, h => by simp [JVal.beq] at h
  | .b _, .arr _, h => by simp [JVal.beq] at h
  | .b _, .obj _, h => by simp [JVal.beq] at h
  | .n _, .null, h => by simp [JVal.beq] at h
  | .n _, .b _, h => by simp [JVal.beq] at h
  | .n _, .n _, h => by simp [JVal.beq] at h; rw [h]
  | .n _, .s _, h => by simp [JVal.beq] at h
  | .n _, .arr _, h => by simp [JVal.beq] at h
  | .n _, .obj _, h => by simp [JVal.beq] at h
  | .s _, .null, h => by simp [JVal.beq] at h
  | .s _, .b _, h => by simp [JVal.beq] at h
  | .s _, .n _, h => by simp [JVal.beq] at h
  | .s _, .s _, h => by simp [JVal.beq] at h; rw [h]
  | .s _, .arr _, h => by simp [JVal.beq] at h
  | .s _, .obj _, h => by simp [JVal.beq] at h
  | .arr _, .null, h => by simp [JVal.beq] at h
  | .arr _, .b _, h => by simp [JVal.beq] at h
  | .arr _, .n _, h => by simp [JVal.beq] at h
  | .arr _, .s _, h => by simp [JVal.beq] at h
  | .arr xs, .arr ys, h => by
      simp only [JVal.beq] at h
      rw [JVal.eqArr_of_beq xs ys h]
  | .arr _, .obj _, h => by simp [JVal.beq] at h
  | .obj _, .null, h => by simp [JVal.beq] at h
  | .obj _, .b _, h => by simp [JVal.beq] at h
  | .obj _, .n _, h => by simp [JVal.beq] at h
  | .obj _, .s _, h => by simp [JVal.beq] at h
  | .obj _, .arr _, h => by simp [JVal.beq] at h
  | .obj xs, .obj ys, h => by
      simp only [JVal.beq] at h
      rw [JVal.eqObj_of_beq xs ys h]

/-- Soundness of the array equality test. -/
def JVal.eqArr_of_beq : ∀ xs ys, JVal.beqArr xs ys = true → xs = ys
  | [], [], _ => rfl
  | [], _ :: _, h => by simp [JVal.beqArr] at h
  | _ :: _, [], h => by simp [JVal.beqArr] at h
  | x :: xs, y :: ys, h => by
      simp only [JVal.beqArr, Bool.and_eq_true] at h
      rw [JVal.eq_of_beq x y h.1, JVal.eqArr_of_beq xs ys h.2]

/-- Soundness of the object equality test. -/
def JVal.eqObj_of_beq : ∀ xs ys, JVal.beqObj xs ys = true → xs = ys
  | [], [], _ => rfl
  | [], _ :: _, h => by simp [JVal.beqObj] at h
  | _ :: _, [], h => by simp [JVal.beqObj] at h
  | (k1, v1) :: xs, (k2, v2) :: ys, h => by
      simp only [JVal.beqObj, Bool.and_eq_true] at h
      obtain ⟨⟨hk, hv⟩, hrest⟩ := h
      have hk2 : k1 = k2 := by simpa using hk
      rw [hk2, JVal.eq_of_beq v1 v2 hv, JVal.eqObj_of_beq xs ys hrest]

end

instance : DecidableEq JVal := fun a b =>
  if h : JVal.beq a b = true then isTrue (JVal.eq_of_beq a b h)
  else isFalse (fun e => h (e ▸ JVal.beq_refl a))

/-- Lookup of a key in a dict (first occurrence). -/
def olookup : JObj → String → Option JVal
  | [], _ => none
  | (k, v) :: rest, key => if k = key then some v else olookup rest key

/-- Dict assignment: replace the value in place when the key is present,
append at the end otherwise (Python dicts keep insertion order). -/
def oset : JObj → String → JVal → JObj
  | [], key, v => [(key, v)]
  | (k, w) :: rest, key, v =>
      if k = key then (k, v) :: rest else (k, w) :: oset rest key v

/-- Python d.get key: None both when the key is absent and when it is bound
to None. -/
def pyGet (o : JObj) (key : String) : JVal := (olookup o key).getD .null

/-- Python d.get key d: the default only when the key is absent. -/
def pyGetD (o : JObj) (key : String) (d : JVal) : JVal := (olookup o key).getD d

/-- Python truthiness of a value. -/
def pyTruthy : JVal → Bool
  | .null => false
  | .b x => x
  | .n x => decide (x ≠ 0)
  | .s x => decide (x ≠ "")
  | .arr l => !l.isEmpty
  | .obj l => !l.isEmpty

/-- Python expression a or fb: fb exactly when a is falsy. -/
def pyOr (a fb : JVal) : JVal := if pyTruthy a then a else fb

/-- Whether a value is a dict, so that calling .get on it does not raise
AttributeError. -/
def JVal.isObj : JVal → Bool
  | .obj _ => true
  | _ => false

/-- Whether slicing the value (v with a slice subscript) succeeds: it works on
sequences (str, list) and raises TypeError on None, bool, numbers, dicts. -/
def JVal.sliceable : JVal → Bool
  | .s _ => true
  | .arr _ => true
  | _ => false

/-- Whether the Python len of the value succeeds: str, list and dict are
sized; None, bool and numbers raise TypeError. -/
def JVal.hasLen : JVal → Bool
  | .s _ => true
  | .arr _ => true
  | .obj _ => true
  | _ => false

/-- An argument of context.emit: a topic and a data payload. -/
structure Event where
  topic : String
  data : JObj
deriving DecidableEq, Inhabited

/-- Outcome of the external completion call followed by json.loads on its
content: raises is any exception escaping from inside the try block of the
handler (network failure, missing credential, and so on), parseError is
content rejected by json.loads, parsed is content that json.loads turns into
the given JSON object. -/
inductive SvcResult where
  | raises : String → SvcResult
  | parseError : String → SvcResult
  | parsed : JObj → SvcResult

/-- Placeholder text of an exception raised by a log line while rendering
parsed values (CPython would produce a specific TypeError, ValueError or
AttributeError message); no theorem below inspects this text. -/
def logRaiseMsg : String := "error while logging the parsed response"

/-- Whether the percent-format of the parsed confidence value at
classify_message_step.py line 131 succeeds: only bool and numbers accept the
format spec .2 percent; str, None, lists and dicts raise. -/
def fmtPercentOk : JVal → Bool
  | .b _ => true
  | .n _ => true
  | _ => false

/-- Whether a value is a JSON string. -/
def isStrVal : JVal → Bool
  | .s _ => true
  | _ => false

/-- Whether the comma join of the parsed keywords value at
classify_message_step.py line 133 succeeds, given that the value is truthy: a
str iterates over its characters, a list must contain only strings, a dict
iterates over its (string) keys; other truthy values are not iterable. -/
def joinOk : JVal → Bool
  | .s _ => true
  | .arr xs => xs.all isStrVal
  | .obj _ => true
  | _ => false

/-- Outcome of one invocation of the ClassifyMessage handler: the events
emitted, whether the missing-body warning at line 60 was logged, and the
message of an unhandled exception escaping the handler, if any. -/
structure ClassifyOutcome where
  emits : List Event
  warnedNoBody : Bool
  raised : Option String

/-- The fixed-key part of the emit_data dict built by ClassifyMessage (lines
137 to 150, repeated at 174 to 187 and 210 to 223 of
classify_message_step.py). The local variable body of the source holds the
html field of the input, so that is what the body key of the payload
carries. -/
def basePayload (input : JObj) (sender ibi conf reas kws : JVal) (now : String) : JObj :=
  [("messageId", pyGet input "messageId"),
   ("source", pyGet input "source"),
   ("body", pyGet input "html"),
   ("subject", pyGetD input "subject" (.s "")),
   ("senderId", pyGet input "senderId"),
   ("sender", sender),
   ("pageName", pyGet input "pageName"),
   ("isBrandInquiry", ibi),
   ("confidence", conf),
   ("reasoning", reas),
   ("keywords", kws),
   ("classifiedAt", .s now)]

/-- The email-threading passthrough block of ClassifyMessage (lines 151 to
158, repeated verbatim at 188 to 195 and 224 to 231): when the source field
equals email, each of inReplyTo, references, emailHeaders is appended to the
payload when its value on the input is truthy. -/
def addEmailMeta (input : JObj) (p : JObj) : JObj :=
  if pyGet input "source" = JVal.s "email" then
    let p1 := if pyTruthy (pyGet input "inReplyTo")
      then oset p "inReplyTo" (pyGet input "inReplyTo") else p
    let p2 := if pyTruthy (pyGet input "references")
      then oset p1 "references" (pyGet input "references") else p1
    if pyTruthy (pyGet input "emailHeaders")
      then oset p2 "emailHeaders" (pyGet input "emailHeaders") else p2
  else p

/-- A complete message.classified payload of ClassifyMessage. -/
def classifyPayload (input : JObj) (sender ibi conf reas kws : JVal) (now : String) : JObj :=
  addEmailMeta input (basePayload input sender ibi conf reas kws now)

/-- The handler of classify_message_step.py, lines 35 to 236. Control flow:
read messageId, the html field (bound to the local named body), source,
subject (default empty string) and sender (default empty dict); calling .get
on a non-dict sender at line 49 raises AttributeError; the body-preview log
at line 57 slices body before any guard, raising TypeError when the html
field is absent (body is None) or otherwise unsliceable; a falsy body logs a
warning and returns without emitting (lines 59 to 61); otherwise exactly one
message.classified event is emitted: with the parsed values on the success
path (lines 121 to 163), with defaults and a reasoning built from the decode
error on json.JSONDecodeError (lines 167 to 200), and with defaults and a
reasoning built from the exception message on any other exception (lines 202
to 236). A log line over the parsed values (lines 131 and 133) that raises
diverts the success path to that last branch. -/
def classifyHandler (input : JObj) (svc : SvcResult) (now : String) : ClassifyOutcome :=
  let sender := pyGetD input "sender" (.obj [])
  if !sender.isObj then ⟨[], false, some "AttributeError"⟩
  else
    let body := pyGet input "html"
    if !body.sliceable then ⟨[], false, some "TypeError"⟩
    else if !pyTruthy body then ⟨[], true, none⟩
    else
      match svc with
      | .raises e =>
          ⟨[⟨"message.classified",
             classifyPayload input sender (.b false) (.n 0)
               (.s ("Classification error: " ++ e)) (.arr []) now⟩], false, none⟩
      | .parseError e =>
          ⟨[⟨"message.classified",
             classifyPayload input sender (.b false) (.n 0)
               (.s ("Classification failed: " ++ e)) (.arr []) now⟩], false, none⟩
      | .parsed o =>
          let ibi := pyGetD o "isBrandInquiry" (.b false)
          let conf := pyGetD o "confidence" (.n 0)
          let reas := pyGetD o "reasoning" (.s "No reasoning provided")
          let kws := pyGetD o "keywords" (.arr [])
          if fmtPercentOk conf && (!pyTruthy kws || joinOk kws) then
            ⟨[⟨"message.classified",
               classifyPayload input sender ibi conf reas kws now⟩], false, none⟩
          else
            ⟨[⟨"message.classified",
               classifyPayload input sender (.b false) (.n 0)
                 (.s ("Classification error: " ++ logRaiseMsg)) (.arr []) now⟩],
             false, none⟩

/-- The external keyed store, restricted to the one collection (inquiries)
the code touches: a map from key value to stored record. -/
abbrev Store := JVal → Option JObj

/-- context.state.set on the inquiries collection. -/
def stSet (st : Store) (key : JVal) (v : JObj) : Store :=
  fun k2 => if k2 = key then some v else st k2

/-- Lookup of a field inside an optional stored record. -/
def stLookup (r : Option JObj) (k : String) : Option JVal :=
  match r with
  | some l => olookup l k
  | none => none

/-- Load-or-create of an inquiry record: a missing record, and likewise a
stored record that is falsy (the empty dict), is replaced by the stub dict
holding only the id field. This is the semantics both of the or-expression in
mark_as_failed (line 184 of extract_inquiry_step.py) and of the not-inquiry
branch in the handler (lines 141 to 144). -/
def loadOrStub (st : Store) (key : JVal) : JObj :=
  match st key with
  | some r => if r.isEmpty then [("id", key)] else r
  | none => [("id", key)]

/-- mark_as_failed of extract_inquiry_step.py, lines 182 to 187: load or
create the record, set status to extraction_failed and error to the message,
persist. -/
def markAsFailed (st : Store) (key : JVal) (errorMsg : String) : Store :=
  let inquiry := loadOrStub st key
  let inquiry2 := oset (oset inquiry "status" (.s "extraction_failed"))
    "error" (.s errorMsg)
  stSet st key inquiry2

/-- Whether the logging of the parsed extraction (extract_inquiry_step.py
lines 120 to 126) runs without raising: the chained .get calls require the
brand and campaign fields (after defaulting to the empty dict) to be dicts,
the len call requires deliverables (after defaulting to the empty list) to be
sized, and the further .get chain requires budget (after defaulting to the
empty dict) to be a dict. Any violation raises AttributeError or TypeError,
which the inner except clause (JSONDecodeError only) does not catch, so it
falls to the outer except clause. -/
def logOkExtract (o : JObj) : Bool :=
  (pyGetD o "brand" (.obj [])).isObj &&
  match pyGetD o "campaign" (.obj []) with
  | .obj cf => (pyGetD cf "deliverables" (.arr [])).hasLen &&
      (pyGetD cf "budget" (.obj [])).isObj
  | _ => false

/-- Outcome of one invocation of the ExtractInquiry handler: events emitted,
whether the missing-body warning at line 55 was logged, the message of an
unhandled exception escaping the handler if any, and the state of the store
afterwards. -/
structure ExtractOutcome where
  emits : List Event
  warnedNoBody : Bool
  raised : Option String
  store : Store

/-- The handler of extract_inquiry_step.py, lines 34 to 179. Control flow:
read inquiryId, body, source, threadKey, sender; a truthy non-dict sender
raises AttributeError at line 50, before the try block; a falsy body logs a
warning and returns without touching the store (lines 54 to 56); an exception
from the completion call runs mark_as_failed with the exception message
(lines 172 to 179); a json.loads failure runs mark_as_failed with the message
prefixed by the words JSON parse error (lines 131 to 138) and returns; when
the parsed-response logging raises (see logOkExtract) the outer except clause
likewise runs mark_as_failed; otherwise the loaded (or stub) record gets
status extracted, extractedData, extractedAt and, when the input sender is
truthy and the record sender is falsy, the input sender; the record is
persisted and exactly one inquiry.extracted event is emitted with the five
keys inquiryId, source, threadKey, extracted, sender (lines 140 to 168). -/
def extractHandler (input : JObj) (svc : SvcResult) (now : String) (st : Store) : ExtractOutcome :=
  let inquiryId := pyGet input "inquiryId"
  let body := pyGet input "body"
  let sender := pyGet input "sender"
  if pyTruthy sender && !sender.isObj then ⟨[], false, some "AttributeError", st⟩
  else if !pyTruthy body then ⟨[], true, none, st⟩
  else
    match svc with
    | .raises e => ⟨[], false, none, markAsFailed st inquiryId e⟩
    | .parseError e =>
        ⟨[], false, none, markAsFailed st inquiryId ("JSON parse error: " ++ e)⟩
    | .parsed o =>
        if !logOkExtract o then
          ⟨[], false, none, markAsFailed st inquiryId logRaiseMsg⟩
        else
          let inquiry := loadOrStub st inquiryId
          let inquiry2 := oset (oset (oset inquiry
            "status" (.s "extracted"))
            "extractedData" (.obj o))
            "extractedAt" (.s now)
          let inquiry3 :=
            if pyTruthy sender && !pyTruthy (pyGet inquiry2 "sender") then
              oset inquiry2 "sender" sender
            else inquiry2
          ⟨[⟨"inquiry.extracted",
             [("inquiryId", inquiryId),
              ("source", pyGet input "source"),
              ("threadKey", pyOr (pyGet input "threadKey") (pyGet inquiry3 "threadKey")),
              ("extracted", .obj o),
              ("sender", pyOr sender (pyGet inquiry3 "sender"))]⟩],
           false, none, stSet st inquiryId inquiry3⟩

/-- Schema conformity of the sender field of an input event (both step
configs declare sender as an object): when present and truthy it is a dict.
A truthy non-dict sender makes either handler raise AttributeError on the
sender.get log line before any other work. -/
abbrev senderOk (input : JObj) : Prop :=
  pyTruthy (pyGet input "sender") = true → (pyGet input "sender").isObj = true

/-- Helper: looking up the key just set. -/
theorem olookup_oset_self (l : JObj) (k : String) (v : JVal) :
    olookup (oset l k v) k = some v := by
  induction l with
  | nil => simp [oset, olookup]
  | cons hd tl ih =>
      obtain ⟨k1, v1⟩ := hd
      by_cases h : k1 = k
      · subst h; simp [oset, olookup]
      · simp [oset, olookup, h, ih]

/-- Helper: setting one key leaves lookups of other keys unchanged. -/
theorem olookup_oset_ne (l : JObj) (k k2 : String) (v : JVal) (h : k ≠ k2) :
    olookup (oset l k v) k2 = olookup l k2 := by
  induction l with
  | nil => simp [oset, olookup, h]
  | cons hd tl ih =>
      obtain ⟨k1, v1⟩ := hd
      by_cases h1 : k1 = k
      · subst h1; simp [oset, olookup, h]
      · by_cases h2 : k1 = k2
        · subst h2; simp [oset, olookup, h1]
        · simp [oset, olookup, h1, h2, ih]

/-- Helper: setting a key to the value it already holds is the identity. -/
theorem oset_self_of_lookup (l : JObj) (k : String) (v : JVal)
    (h : olookup l k = some v) : oset l k v = l := by
  induction l with
  | nil => simp [olookup] at h
  | cons hd tl ih =>
      obtain ⟨k1, v1⟩ := hd
      by_cases h1 : k1 = k
      · subst h1
        simp [olookup] at h
        simp [oset, h]
      · simp only [olookup, h1, if_false, if_neg h1] at h
        simp [oset, h1, ih h]

/-- Helper: a dict is not empty after an assignment. -/
theorem oset_isEmpty (l : JObj) (k : String) (v : JVal) :
    (oset l k v).isEmpty = false := by
  cases l with
  | nil => simp [oset]
  | cons hd tl =>
      obtain ⟨k1, v1⟩ := hd
      by_cases h : k1 = k <;> simp [oset, h]

/-- Helper: reading the store at the key just written. -/
theorem stSet_same (st : Store) (k : JVal) (v : JObj) : stSet st k v k = some v := by
  simp [stSet]

/-- Helper: reading the store at any other key. -/
theorem stSet_other (st : Store) (k : JVal) (v : JObj) (k2 : JVal) (h : k2 ≠ k) :
    stSet st k v k2 = st k2 := by
  simp [stSet, h]

/-- Helper: a truthy get means the key is really present with that value. -/
theorem olookup_eq_some_of_truthy (o : JObj) (k : String)
    (h : pyTruthy (pyGet o k) = true) : olookup o k = some (pyGet o k) := by
  unfold pyGet at h ⊢
  cases hl : olookup o k with
  | none => rw [hl] at h; simp [pyTruthy] at h
  | some v => simp

/-- Helper: whatever the environment does, the ClassifyMessage handler either
emits nothing or emits a single message.classified event whose payload is one
classifyPayload instance. -/
theorem classify_emits_shape (input : JObj) (svc : SvcResult) (now : String) :
    (classifyHandler input svc now).emits = [] ∨
    ∃ ibi conf reas kws,
      (classifyHandler input svc now).emits =
        [⟨"message.classified",
          classifyPayload input (pyGetD input "sender" (.obj [])) ibi conf reas kws now⟩] := by
  dsimp only [classifyHandler]
  repeat' split
  all_goals first
    | (left; rfl)
    | (right; exact ⟨_, _, _, _, rfl⟩)

/-- Helper: the fixed-key part of the classify payload never carries the
three email-threading keys. -/
theorem basePayload_no_meta (input : JObj) (sender ibi conf reas kws : JVal)
    (now : String) :
    olookup (basePayload input sender ibi conf reas kws now) "inReplyTo" = none ∧
    olookup (basePayload input sender ibi conf reas kws now) "references" = none ∧
    olookup (basePayload input sender ibi conf reas kws now) "emailHeaders" = none := by
  refine ⟨?_, ?_, ?_⟩ <;> simp [basePayload, olookup]

/-- Helper: email-threading lookups on a full classify payload. When the
source is the string email, each of the three keys is present exactly when
its input value is truthy, and then carries the input value; when the source
is anything else, none of the three keys is present. -/
theorem classifyPayload_meta (input : JObj) (sender ibi conf reas kws : JVal)
    (now : String) :
    (pyGet input "source" = JVal.s "email" →
      (pyTruthy (pyGet input "inReplyTo") = true →
        olookup (classifyPayload input sender ibi conf reas kws now) "inReplyTo"
          = olookup input "inReplyTo") ∧
      (pyTruthy (pyGet input "references") = true →
        olookup (classifyPayload input sender ibi conf reas kws now) "references"
          = olookup input "references") ∧
      (pyTruthy (pyGet input "emailHeaders") = true →
        olookup (classifyPayload input sender ibi conf reas kws now) "emailHeaders"
          = olookup input "emailHeaders")) ∧
    (pyGet input "source" ≠ JVal.s "email" →
      olookup (classifyPayload input sender ibi conf reas kws now) "inReplyTo" = none ∧
      olookup (classifyPayload input sender ibi conf reas kws now) "references" = none ∧
      olookup (classifyPayload input sender ibi conf reas kws now) "emailHeaders" = none) := by
  have hbase := basePayload_no_meta input sender ibi conf reas kws now
  unfold classifyPayload addEmailMeta
  by_cases hsrc : pyGet input "source" = JVal.s "email"
  · rw [if_pos hsrc]
    refine ⟨fun _ => ⟨?_, ?_, ?_⟩, fun hne => absurd hsrc hne⟩
    · intro t1
      rw [olookup_eq_some_of_truthy input "inReplyTo" t1]
      by_cases t3 : pyTruthy (pyGet input "emailHeaders") = true <;>
        by_cases t2 : pyTruthy (pyGet input "references") = true <;>
          simp [t1, t2, t3, olookup_oset_ne, olookup_oset_self]
    · intro t2
      rw [olookup_eq_some_of_truthy input "references" t2]
      by_cases t1 : pyTruthy (pyGet input "inReplyTo") = true <;>
        by_cases t3 : pyTruthy (pyGet input "emailHeaders") = true <;>
          simp [t1, t2, t3, olookup_oset_ne, olookup_oset_self]
    · intro t3
      rw [olookup_eq_some_of_truthy input "emailHeaders" t3]
      by_cases t1 : pyTruthy (pyGet input "inReplyTo") = true <;>
        by_cases t2 : pyTruthy (pyGet input "references") = true <;>
          simp [t1, t2, t3, olookup_oset_ne, olookup_oset_self]
  · rw [if_neg hsrc]
    exact ⟨fun h => absurd h hsrc, fun _ => hbase⟩

/-- Claim C1, evaluated at a failing input (code bug): at an input holding
exactly the three fields the step declares required (messageId, source,
body), with the completion service returning a well-formed JSON object, the
ClassifyMessage handler emits no message.classified event at all: the code
reads the undeclared html field into its body variable, so body is None, and
the body-preview log line slices it before any guard, so a TypeError escapes
the handler before the completion call. The claim says exactly one event with
the parsed values is emitted. -/
theorem c1_classify_crashes_on_declared_input :
    (classifyHandler
      [("messageId", .s "m1"), ("source", .s "email"),
       ("body", .s "Hi, we want a collab reel from you")]
      (.parsed [("isBrandInquiry", .b true), ("confidence", .n 1),
                ("reasoning", .s "clear ask"), ("keywords", .arr [.s "collab"])])
      "2026-01-01T00:00:00").emits = [] ∧
    (classifyHandler
      [("messageId", .s "m1"), ("source", .s "email"),
       ("body", .s "Hi, we want a collab reel from you")]
      (.parsed [("isBrandInquiry", .b true), ("confidence", .n 1),
                ("reasoning", .s "clear ask"), ("keywords", .arr [.s "collab"])])
      "2026-01-01T00:00:00").raised = some "TypeError" := by
  decide

/-- Claim C2, evaluated at a failing input (code bug): at an input holding a
non-empty body field (but, like any event that only carries the declared
fields, no html field), with the completion service raising, the
ClassifyMessage handler does not emit the degraded default event the claim
promises: the unguarded body-preview slice raises TypeError before the try
block is ever entered, so zero events are emitted. -/
theorem c2_classify_crashes_before_failure_path :
    (classifyHandler
      [("messageId", .s "m2"), ("source", .s "email"), ("body", .s "hello there")]
      (.raises "network unreachable")
      "2026-01-01T00:00:00").emits = [] ∧
    (classifyHandler
      [("messageId", .s "m2"), ("source", .s "email"), ("body", .s "hello there")]
      (.raises "network unreachable")
      "2026-01-01T00:00:00").raised = some "TypeError" := by
  decide

/-- Claim C3, evaluated at failing inputs (code bug): an input missing the
body field but carrying a truthy html field is not a no-op: the handler runs
the full classification and emits one event; and an input missing both body
and html does not log the missing-body warning and return cleanly: the
body-preview slice raises TypeError first, which escapes the handler. The
claim says every input missing body warns and returns with zero events and
no other observable effect. -/
theorem c3_missing_body_not_noop :
    (classifyHandler
      [("messageId", .s "m3"), ("source", .s "facebook"), ("html", .s "yo, sponsor deal?")]
      (.parsed [("isBrandInquiry", .b true)])
      "2026-01-01T00:00:00").emits.length = 1 ∧
    (classifyHandler
      [("messageId", .s "m3"), ("source", .s "facebook"), ("html", .s "yo, sponsor deal?")]
      (.parsed [("isBrandInquiry", .b true)])
      "2026-01-01T00:00:00").warnedNoBody = false ∧
    (classifyHandler
      [("messageId", .s "m4"), ("source", .s "email")]
      (.parsed [("isBrandInquiry", .b true)])
      "2026-01-01T00:00:00").raised = some "TypeError" ∧
    (classifyHandler
      [("messageId", .s "m4"), ("source", .s "email")]
      (.parsed [("isBrandInquiry", .b true)])
      "2026-01-01T00:00:00").warnedNoBody = false := by
  decide

/-- Claim C4, counterexample: an email input whose inReplyTo field is present
but empty (and therefore falsy) loses that field: the handler emits one
event on the success path and its payload has no inReplyTo key, although the
claim says every present inReplyTo appears unchanged. -/
theorem c4_counterexample_empty_inReplyTo_dropped :
    olookup
      [("messageId", .s "m1"), ("source", .s "email"), ("html", .s "hello"),
       ("inReplyTo", .s "")] "inReplyTo" = some (.s "") ∧
    ((classifyHandler
      [("messageId", .s "m1"), ("source", .s "email"), ("html", .s "hello"),
       ("inReplyTo", .s "")]
      (.parsed [("isBrandInquiry", .b true), ("confidence", .n 1),
                ("reasoning", .s "r"), ("keywords", .arr [.s "k"])])
      "2026-01-01T00:00:00").emits.map (fun e => olookup e.data "inReplyTo")) = [none] := by
  decide

/-- Claim C4 as amended: for every event the ClassifyMessage handler emits,
on whichever of the three emission paths, when the input source is the
string email each of inReplyTo, references and emailHeaders that is present
with a truthy (non-empty, non-null) value on the input appears unchanged in
the payload; when the source is not email the payload never contains any of
the three keys. -/
theorem c4_email_meta_passthrough (input : JObj) (svc : SvcResult) (now : String)
    (e : Event) (hmem : e ∈ (classifyHandler input svc now).emits) :
    (pyGet input "source" = JVal.s "email" →
      (pyTruthy (pyGet input "inReplyTo") = true →
        olookup e.data "inReplyTo" = olookup input "inReplyTo") ∧
      (pyTruthy (pyGet input "references") = true →
        olookup e.data "references" = olookup input "references") ∧
      (pyTruthy (pyGet input "emailHeaders") = true →
        olookup e.data "emailHeaders" = olookup input "emailHeaders")) ∧
    (pyGet input "source" ≠ JVal.s "email" →
      olookup e.data "inReplyTo" = none ∧
      olookup e.data "references" = none ∧
      olookup e.data "emailHeaders" = none) := by
  rcases classify_emits_shape input svc now with hsh | ⟨ibi, conf, reas, kws, hsh⟩
  · rw [hsh] at hmem; simp at hmem
  · rw [hsh] at hmem
    simp only [List.mem_singleton] at hmem
    subst hmem
    exact classifyPayload_meta input (pyGetD input "sender" (.obj [])) ibi conf reas kws now

/-- Claim C4 witness: the amended passthrough theorem applied at a concrete
email input carrying all three threading fields. -/
theorem c4_email_meta_passthrough_witness :
    olookup
      ((classifyHandler
        [("messageId", .s "m1"), ("source", .s "email"), ("html", .s "hello"),
         ("inReplyTo", .s "idA"), ("references", .s "idB"), ("emailHeaders", .obj [("k", .s "v")])]
        (.parsed [("isBrandInquiry", .b true)])
        "2026-01-01T00:00:00").emits.headI.data) "inReplyTo" = some (.s "idA") := by
  have h := c4_email_meta_passthrough
    [("messageId", .s "m1"), ("source", .s "email"), ("html", .s "hello"),
     ("inReplyTo", .s "idA"), ("references", .s "idB"), ("emailHeaders", .obj [("k", .s "v")])]
    (.parsed [("isBrandInquiry", .b true)])
    "2026-01-01T00:00:00"
    ((classifyHandler
      [("messageId", .s "m1"), ("source", .s "email"), ("html", .s "hello"),
       ("inReplyTo", .s "idA"), ("references", .s "idB"), ("emailHeaders", .obj [("k", .s "v")])]
      (.parsed [("isBrandInquiry", .b true)])
      "2026-01-01T00:00:00").emits.headI)
    (by decide)
  have h2 := (h.1 (by decide)).1 (by decide)
  rw [h2]
  decide

/-- Helper: under the sender schema hypothesis, the AttributeError guard of
the extract handler is off. -/
theorem extract_guard_false (input : JObj) (hs : senderOk input) :
    (pyTruthy (pyGet input "sender") && !(pyGet input "sender").isObj) = false := by
  by_cases h : pyTruthy (pyGet input "sender") = true
  · simp [h, hs h]
  · simp [Bool.not_eq_true] at h
    simp [h]

/-- Helper: evaluation of the extract handler on the exception path. -/
theorem extractHandler_raises_eq (input : JObj) (e : String) (now : String)
    (st : Store) (hs : senderOk input) (hb : pyTruthy (pyGet input "body") = true) :
    extractHandler input (.raises e) now st =
      ⟨[], false, none, markAsFailed st (pyGet input "inquiryId") e⟩ := by
  unfold extractHandler
  simp [extract_guard_false input hs, hb]

/-- Helper: evaluation of the extract handler on the JSON-decode-failure
path. -/
theorem extractHandler_parseError_eq (input : JObj) (e : String) (now : String)
    (st : Store) (hs : senderOk input) (hb : pyTruthy (pyGet input "body") = true) :
    extractHandler input (.parseError e) now st =
      ⟨[], false, none,
        markAsFailed st (pyGet input "inquiryId") ("JSON parse error: " ++ e)⟩ := by
  unfold extractHandler
  simp [extract_guard_false input hs, hb]

/-- Helper: evaluation of the extract handler on the success path. -/
theorem extractHandler_parsed_eq (input o : JObj) (now : String) (st : Store)
    (hs : senderOk input) (hb : pyTruthy (pyGet input "body") = true)
    (hl : logOkExtract o = true) :
    extractHandler input (.parsed o) now st =
      (let inquiry := loadOrStub st (pyGet input "inquiryId")
       let inquiry2 := oset (oset (oset inquiry
         "status" (.s "extracted"))
         "extractedData" (.obj o))
         "extractedAt" (.s now)
       let inquiry3 :=
         if pyTruthy (pyGet input "sender") && !pyTruthy (pyGet inquiry2 "sender") then
           oset inquiry2 "sender" (pyGet input "sender")
         else inquiry2
       ⟨[⟨"inquiry.extracted",
          [("inquiryId", pyGet input "inquiryId"),
           ("source", pyGet input "source"),
           ("threadKey", pyOr (pyGet input "threadKey") (pyGet inquiry3 "threadKey")),
           ("extracted", .obj o),
           ("sender", pyOr (pyGet input "sender") (pyGet inquiry3 "sender"))]⟩],
        false, none, stSet st (pyGet input "inquiryId") inquiry3⟩) := by
  unfold extractHandler
  simp [extract_guard_false input hs, hb, hl]

/-- Helper: the record right after mark_as_failed carries the terminal status
and the error message. -/
theorem markAsFailed_lookups (st : Store) (k : JVal) (msg : String) :
    stLookup (markAsFailed st k msg k) "status" = some (.s "extraction_failed") ∧
    stLookup (markAsFailed st k msg k) "error" = some (.s msg) := by
  unfold markAsFailed
  rw [stSet_same]
  constructor
  · simp [stLookup, olookup_oset_ne, olookup_oset_self]
  · simp [stLookup, olookup_oset_self]

/-- Claim C5, counterexample: a well-formed JSON object whose brand field is
a number (not an object) does not lead to an extracted record and an emitted
event; the chained .get in the response logging raises AttributeError, the
outer except clause catches it, and the inquiry is marked
extraction_failed with zero events, although the claim promises
status extracted and one event for every well-formed JSON object. -/
theorem c5_counterexample_stray_brand :
    stLookup ((extractHandler
      [("inquiryId", .s "i1"), ("source", .s "email"), ("body", .s "We want a reel")]
      (.parsed [("brand", .n 5)]) "2026-01-01T00:00:00" (fun _ => none)).store (.s "i1"))
      "status" = some (.s "extraction_failed") ∧
    (extractHandler
      [("inquiryId", .s "i1"), ("source", .s "email"), ("body", .s "We want a reel")]
      (.parsed [("brand", .n 5)]) "2026-01-01T00:00:00" (fun _ => none)).emits = [] := by
  decide

/-- Claim C5 as amended: for every input with schema-conformant sender and
truthy body, when the completion service returns a well-formed JSON object
whose brand and campaign fields, after defaulting, are objects, whose
campaign deliverables value is sized and whose campaign budget value is an
object (so the response logging does not raise), the handler persists the
record under the inquiryId key with status extracted, extractedData equal to
the parsed object and extractedAt set, creating a stub carrying the id field
when no record exists, and emits exactly one inquiry.extracted event whose
payload has exactly the keys inquiryId, source, threadKey, extracted,
sender, with extracted equal to the parsed object. -/
theorem c5_extract_success (input o : JObj) (now : String) (st : Store)
    (hs : senderOk input)
    (hb : pyTruthy (pyGet input "body") = true)
    (hl : logOkExtract o = true) :
    stLookup ((extractHandler input (.parsed o) now st).store (pyGet input "inquiryId"))
      "status" = some (.s "extracted") ∧
    stLookup ((extractHandler input (.parsed o) now st).store (pyGet input "inquiryId"))
      "extractedData" = some (.obj o) ∧
    stLookup ((extractHandler input (.parsed o) now st).store (pyGet input "inquiryId"))
      "extractedAt" = some (.s now) ∧
    (st (pyGet input "inquiryId") = none →
      stLookup ((extractHandler input (.parsed o) now st).store (pyGet input "inquiryId"))
        "id" = some (pyGet input "inquiryId")) ∧
    (extractHandler input (.parsed o) now st).emits.length = 1 ∧
    (∀ e ∈ (extractHandler input (.parsed o) now st).emits,
      e.topic = "inquiry.extracted" ∧
      e.data.map Prod.fst = ["inquiryId", "source", "threadKey", "extracted", "sender"] ∧
      olookup e.data "inquiryId" = some (pyGet input "inquiryId") ∧
      olookup e.data "source" = some (pyGet input "source") ∧
      olookup e.data "extracted" = some (.obj o)) ∧
    (extractHandler input (.parsed o) now st).raised = none := by
  rw [extractHandler_parsed_eq input o now st hs hb hl]
  dsimp only
  rw [stSet_same]
  refine ⟨?_, ?_, ?_, ?_, rfl, ?_, rfl⟩
  · split <;> simp [stLookup, olookup_oset_ne, olookup_oset_self]
  · split <;> simp [stLookup, olookup_oset_ne, olookup_oset_self]
  · split <;> simp [stLookup, olookup_oset_ne, olookup_oset_self]
  · intro hnone
    split <;>
      simp [stLookup, olookup_oset_ne, olookup_oset_self, loadOrStub, hnone, olookup]
  · intro e he
    simp only [List.mem_singleton] at he
    subst he
    refine ⟨rfl, rfl, ?_, ?_, ?_⟩ <;> simp [olookup]

/-- Claim C5 witness: the amended success theorem applied at a concrete
inquiry with a schema-shaped parsed object and an empty store. -/
theorem c5_extract_success_witness :
    stLookup ((extractHandler
      [("inquiryId", .s "i1"), ("source", .s "email"), ("body", .s "We want a reel, budget 50000 INR")]
      (.parsed [("brand", .obj [("contactPerson", .s "Asha")]),
                ("campaign", .obj [("deliverables", .arr [.obj [("type", .s "instagram_reel")]]),
                                   ("budget", .obj [("mentioned", .b true), ("amount", .n 50000)])]),
                ("urgency", .s "high")])
      "2026-01-01T00:00:00" (fun _ => none)).store (.s "i1")) "status" = some (.s "extracted") ∧
    (extractHandler
      [("inquiryId", .s "i1"), ("source", .s "email"), ("body", .s "We want a reel, budget 50000 INR")]
      (.parsed [("brand", .obj [("contactPerson", .s "Asha")]),
                ("campaign", .obj [("deliverables", .arr [.obj [("type", .s "instagram_reel")]]),
                                   ("budget", .obj [("mentioned", .b true), ("amount", .n 50000)])]),
                ("urgency", .s "high")])
      "2026-01-01T00:00:00" (fun _ => none)).emits.length = 1 := by
  have h := c5_extract_success
    [("inquiryId", .s "i1"), ("source", .s "email"), ("body", .s "We want a reel, budget 50000 INR")]
    [("brand", .obj [("contactPerson", .s "Asha")]),
     ("campaign", .obj [("deliverables", .arr [.obj [("type", .s "instagram_reel")]]),
                        ("budget", .obj [("mentioned", .b true), ("amount", .n 50000)])]),
     ("urgency", .s "high")]
    "2026-01-01T00:00:00" (fun _ => none) (by decide) (by decide) (by decide)
  exact ⟨h.1, h.2.2.2.2.1⟩

/-- Claim C6, counterexample: when the completion call raises an exception
whose message is the empty string (in Python, str of a bare Exception), the
persisted error field is the empty string, not the non-empty failure
description the claim promises. -/
theorem c6_counterexample_empty_error :
    stLookup ((extractHandler
      [("inquiryId", .s "i1"), ("source", .s "email"), ("body", .s "hello")]
      (.raises "") "2026-01-01T00:00:00" (fun _ => none)).store (.s "i1"))
      "error" = some (.s "") ∧
    stLookup ((extractHandler
      [("inquiryId", .s "i1"), ("source", .s "email"), ("body", .s "hello")]
      (.raises "") "2026-01-01T00:00:00" (fun _ => none)).store (.s "i1"))
      "status" = some (.s "extraction_failed") := by
  decide

/-- Claim C6 as amended: for every input with schema-conformant sender and
truthy body, when the completion call raises the handler persists status
extraction_failed with error equal to the exception message verbatim (empty
exactly when that message is empty) and emits nothing; when the response is
not valid JSON it persists status extraction_failed with error equal to the
decode message prefixed by the words JSON parse error, which is always
non-empty, and emits nothing. -/
theorem c6_failure_paths (input : JObj) (now : String) (st : Store) (e : String)
    (hs : senderOk input) (hb : pyTruthy (pyGet input "body") = true) :
    ((extractHandler input (.raises e) now st).emits = [] ∧
     stLookup ((extractHandler input (.raises e) now st).store (pyGet input "inquiryId"))
       "status" = some (.s "extraction_failed") ∧
     stLookup ((extractHandler input (.raises e) now st).store (pyGet input "inquiryId"))
       "error" = some (.s e)) ∧
    ((extractHandler input (.parseError e) now st).emits = [] ∧
     stLookup ((extractHandler input (.parseError e) now st).store (pyGet input "inquiryId"))
       "status" = some (.s "extraction_failed") ∧
     stLookup ((extractHandler input (.parseError e) now st).store (pyGet input "inquiryId"))
       "error" = some (.s ("JSON parse error: " ++ e)) ∧
     ("JSON parse error: " ++ e) ≠ "") := by
  rw [extractHandler_raises_eq input e now st hs hb,
      extractHandler_parseError_eq input e now st hs hb]
  refine ⟨⟨rfl, (markAsFailed_lookups st (pyGet input "inquiryId") e).1,
           (markAsFailed_lookups st (pyGet input "inquiryId") e).2⟩,
          ⟨rfl, (markAsFailed_lookups st (pyGet input "inquiryId") _).1,
           (markAsFailed_lookups st (pyGet input "inquiryId") _).2, ?_⟩⟩
  intro hc
  have hlen := congrArg String.length hc
  rw [String.length_append] at hlen
  have h18 : ("JSON parse error: ").length = 18 := rfl
  rw [h18] at hlen
  simp at hlen

/-- Claim C6 witness: the amended failure theorem applied at a concrete
input, concrete decode message and the empty store. -/
theorem c6_failure_paths_witness :
    stLookup ((extractHandler
      [("inquiryId", .s "i2"), ("source", .s "email"), ("body", .s "hi")]
      (.parseError "Expecting value") "2026-01-01T00:00:00" (fun _ => none)).store (.s "i2"))
      "error" = some (.s "JSON parse error: Expecting value") ∧
    (extractHandler
      [("inquiryId", .s "i2"), ("source", .s "email"), ("body", .s "hi")]
      (.raises "boom") "2026-01-01T00:00:00" (fun _ => none)).emits = [] := by
  have h1 := c6_failure_paths
    [("inquiryId", .s "i2"), ("source", .s "email"), ("body", .s "hi")]
    "2026-01-01T00:00:00" (fun _ => none) "Expecting value" (by decide) (by decide)
  have h2 := c6_failure_paths
    [("inquiryId", .s "i2"), ("source", .s "email"), ("body", .s "hi")]
    "2026-01-01T00:00:00" (fun _ => none) "boom" (by decide) (by decide)
  exact ⟨h1.2.2.2.1, h2.1.1⟩

/-- Helper: mark_as_failed leaves every other key of the store unchanged. -/
theorem markAsFailed_other (st : Store) (k : JVal) (msg : String) (k2 : JVal)
    (h : k2 ≠ k) : markAsFailed st k msg k2 = st k2 := by
  unfold markAsFailed
  exact stSet_other _ _ _ _ h

/-- Helper: the record mark_as_failed writes under its own key. -/
theorem markAsFailed_at_key (st : Store) (k : JVal) (msg : String) :
    markAsFailed st k msg k =
      some (oset (oset (loadOrStub st k) "status" (.s "extraction_failed"))
        "error" (.s msg)) := by
  unfold markAsFailed
  rw [stSet_same]

/-- Helper: loading an existing non-empty record yields that record. -/
theorem loadOrStub_of_some (st : Store) (k : JVal) (r : JObj)
    (h : st k = some r) (hne : r.isEmpty = false) : loadOrStub st k = r := by
  unfold loadOrStub
  rw [h]
  simp [hne]

/-- Helper: any invocation of the extract handler leaves the store untouched,
runs mark_as_failed on the inquiryId key, or writes one record whose status
field is the string extracted under the inquiryId key. -/
theorem extractHandler_store_cases (input : JObj) (svc : SvcResult) (now : String)
    (st : Store) :
    (extractHandler input svc now st).store = st ∨
    (∃ msg, (extractHandler input svc now st).store
      = markAsFailed st (pyGet input "inquiryId") msg) ∨
    (∃ rec, olookup rec "status" = some (.s "extracted") ∧
      (extractHandler input svc now st).store
        = stSet st (pyGet input "inquiryId") rec) := by
  unfold extractHandler
  dsimp only
  repeat' split
  all_goals first
    | (left; rfl)
    | (right; left; exact ⟨_, rfl⟩)
    | (right; right; refine ⟨_, ?_, rfl⟩;
       simp [olookup_oset_ne, olookup_oset_self])

/-- Claim C7, counterexample: a record already in the terminal status
extracted is moved out of it by a later invocation for the same inquiryId
whose completion call fails: its status becomes extraction_failed. The claim
says no sequence of invocations ever moves a record out of a terminal
status. -/
theorem c7_counterexample_terminal_overwritten :
    stLookup ((stSet (fun _ => none) (.s "i1")
        [("id", .s "i1"), ("status", .s "extracted")]) (.s "i1"))
      "status" = some (.s "extracted") ∧
    stLookup ((extractHandler
      [("inquiryId", .s "i1"), ("source", .s "email"), ("body", .s "second email")]
      (.raises "boom") "2026-01-01T00:00:00"
      (stSet (fun _ => none) (.s "i1")
        [("id", .s "i1"), ("status", .s "extracted")])).store (.s "i1"))
      "status" = some (.s "extraction_failed") := by
  decide

/-- Claim C7 as amended: every write the ExtractInquiry core performs sets
the status field to exactly one of the two terminal strings extracted or
extraction_failed — in particular the status received is never written back:
after any invocation, every store key is either untouched or holds a record
whose status is one of the two terminal strings. A later invocation for the
same inquiryId may however overwrite one terminal status with the other. -/
theorem c7_status_writes_terminal (input : JObj) (svc : SvcResult) (now : String)
    (st : Store) (k : JVal) :
    (extractHandler input svc now st).store k = st k ∨
    stLookup ((extractHandler input svc now st).store k) "status"
      = some (.s "extracted") ∨
    stLookup ((extractHandler input svc now st).store k) "status"
      = some (.s "extraction_failed") := by
  rcases extractHandler_store_cases input svc now st with h | ⟨msg, h⟩ | ⟨rec, hrec, h⟩
  · left; rw [h]
  · rw [h]
    by_cases hk : k = pyGet input "inquiryId"
    · subst hk
      right; right
      exact (markAsFailed_lookups st (pyGet input "inquiryId") msg).1
    · left
      exact markAsFailed_other st _ msg k hk
  · rw [h]
    by_cases hk : k = pyGet input "inquiryId"
    · subst hk
      right; left
      rw [stSet_same]
      simpa [stLookup] using hrec
    · left
      exact stSet_other st _ rec k hk

/-- Claim C8, counterexample: when the stored record exists but is the empty
dict (falsy in Python), mark_as_failed does not keep the existing record: the
or-expression replaces it by the stub, so the persisted record carries an id
field the existing record never had. The claim says the stub is used only
when no record exists. -/
theorem c8_counterexample_empty_record_stubbed :
    (stSet (fun _ => none) (.s "i1") []) (.s "i1") = some [] ∧
    markAsFailed (stSet (fun _ => none) (.s "i1") []) (.s "i1") "oops" (.s "i1") =
      some [("id", .s "i1"), ("status", .s "extraction_failed"), ("error", .s "oops")] := by
  decide

/-- Claim C8 as amended: mark_as_failed is an idempotent upsert where the
stub (a dict holding only the id) replaces the stored record both when it is
missing and when it is the empty dict: one run persists under the inquiryId
key a record with status extraction_failed and error equal to the message,
leaves every other key of the store unchanged, yields exactly the
id-status-error record on a missing or empty stored record, and a second run
with the same arguments leaves the whole store as after the first. -/
theorem c8_mark_as_failed_idempotent_upsert (st : Store) (k : JVal) (msg : String) :
    stLookup (markAsFailed st k msg k) "status" = some (.s "extraction_failed") ∧
    stLookup (markAsFailed st k msg k) "error" = some (.s msg) ∧
    markAsFailed (markAsFailed st k msg) k msg = markAsFailed st k msg ∧
    (∀ k2, k2 ≠ k → markAsFailed st k msg k2 = st k2) ∧
    ((st k = none ∨ st k = some []) →
      markAsFailed st k msg k =
        some [("id", k), ("status", .s "extraction_failed"), ("error", .s msg)]) := by
  have hX : olookup (oset (oset (loadOrStub st k) "status" (.s "extraction_failed"))
      "error" (.s msg)) "status" = some (.s "extraction_failed") := by
    rw [olookup_oset_ne _ _ _ _ (by decide), olookup_oset_self]
  have hXe : olookup (oset (oset (loadOrStub st k) "status" (.s "extraction_failed"))
      "error" (.s msg)) "error" = some (.s msg) := olookup_oset_self _ _ _
  refine ⟨(markAsFailed_lookups st k msg).1, (markAsFailed_lookups st k msg).2,
    ?_, fun k2 h => markAsFailed_other st k msg k2 h, ?_⟩
  · funext k2
    by_cases hk : k2 = k
    · subst hk
      have hload : loadOrStub (markAsFailed st k2 msg) k2 =
          oset (oset (loadOrStub st k2) "status" (.s "extraction_failed"))
            "error" (.s msg) :=
        loadOrStub_of_some _ _ _ (markAsFailed_at_key st k2 msg) (oset_isEmpty _ _ _)
      rw [markAsFailed_at_key, markAsFailed_at_key, hload,
          oset_self_of_lookup _ _ _ hX, oset_self_of_lookup _ _ _ hXe]
    · rw [markAsFailed_other _ _ _ _ hk, markAsFailed_other _ _ _ _ hk]
  · intro hc
    rw [markAsFailed_at_key]
    have hstub : loadOrStub st k = [("id", k)] := by
      rcases hc with h | h <;> simp [loadOrStub, h]
    rw [hstub]
    simp [oset]

/-- Claim C8 witness: the amended upsert theorem applied at the empty store,
a concrete key and a concrete message, with the frame clause discharged at a
concrete second key. -/
theorem c8_mark_as_failed_witness :
    stLookup (markAsFailed (fun _ => none) (.s "i9") "boom" (.s "i9")) "status"
      = some (.s "extraction_failed") ∧
    markAsFailed (fun _ => none) (.s "i9") "boom" (.s "other") = none := by
  have h := c8_mark_as_failed_idempotent_upsert (fun _ => none) (.s "i9") "boom"
  exact ⟨h.1, h.2.2.2.1 (.s "other") (by decide)⟩

/-- Claim C9, counterexample: a sender already present in state, but equal to
the empty dict and therefore falsy, is overwritten by the input sender on the
success path. The claim says an input sender never overwrites a sender
already present in state. -/
theorem c9_counterexample_falsy_sender_overwritten :
    olookup [("id", .s "i1"), ("sender", .obj [])] "sender" = some (.obj []) ∧
    stLookup ((extractHandler
      [("inquiryId", .s "i1"), ("source", .s "email"), ("body", .s "hello"),
       ("sender", .obj [("name", .s "Alice")])]
      (.parsed [("brand", .obj []), ("campaign", .obj [])])
      "2026-01-01T00:00:00"
      (stSet (fun _ => none) (.s "i1")
        [("id", .s "i1"), ("sender", .obj [])])).store (.s "i1"))
      "sender" = some (.obj [("name", .s "Alice")]) := by
  decide

/-- Claim C9 as amended: on the success path the handler mutates only the
status, extractedData, extractedAt and sender fields of the loaded record
(the stored record, or the stub when the stored record is missing or empty):
every other field keeps its loaded value; a truthy sender already in the
loaded record is never overwritten; and the input sender is written exactly
when it is truthy and the loaded record sender is falsy (absent, null or the
empty dict). -/
theorem c9_success_frame (input o : JObj) (now : String) (st : Store)
    (hs : senderOk input)
    (hb : pyTruthy (pyGet input "body") = true)
    (hl : logOkExtract o = true) :
    (∀ f : String,
      f ∉ (["status", "extractedData", "extractedAt", "sender"] : List String) →
      stLookup ((extractHandler input (.parsed o) now st).store (pyGet input "inquiryId")) f
        = olookup (loadOrStub st (pyGet input "inquiryId")) f) ∧
    (pyTruthy (pyGet (loadOrStub st (pyGet input "inquiryId")) "sender") = true →
      stLookup ((extractHandler input (.parsed o) now st).store (pyGet input "inquiryId"))
        "sender" = olookup (loadOrStub st (pyGet input "inquiryId")) "sender") ∧
    ((pyTruthy (pyGet input "sender") = true ∧
      pyTruthy (pyGet (loadOrStub st (pyGet input "inquiryId")) "sender") = false) →
      stLookup ((extractHandler input (.parsed o) now st).store (pyGet input "inquiryId"))
        "sender" = some (pyGet input "sender")) := by
  rw [extractHandler_parsed_eq input o now st hs hb hl]
  dsimp only
  rw [stSet_same]
  have hsend2 : pyGet (oset (oset (oset (loadOrStub st (pyGet input "inquiryId"))
      "status" (.s "extracted")) "extractedData" (.obj o)) "extractedAt" (.s now))
      "sender" = pyGet (loadOrStub st (pyGet input "inquiryId")) "sender" := by
    unfold pyGet
    rw [olookup_oset_ne _ _ _ _ (by decide), olookup_oset_ne _ _ _ _ (by decide),
        olookup_oset_ne _ _ _ _ (by decide)]
  refine ⟨?_, ?_, ?_⟩
  · intro f hf
    simp only [List.mem_cons, List.not_mem_nil, or_false, not_or] at hf
    obtain ⟨h1, h2, h3, h4⟩ := hf
    simp only [stLookup]
    split
    · rw [olookup_oset_ne _ _ _ _ (Ne.symm h4), olookup_oset_ne _ _ _ _ (Ne.symm h3),
          olookup_oset_ne _ _ _ _ (Ne.symm h2), olookup_oset_ne _ _ _ _ (Ne.symm h1)]
    · rw [olookup_oset_ne _ _ _ _ (Ne.symm h3), olookup_oset_ne _ _ _ _ (Ne.symm h2),
          olookup_oset_ne _ _ _ _ (Ne.symm h1)]
  · intro htr
    have hcond : (pyTruthy (pyGet input "sender") &&
        !pyTruthy (pyGet (oset (oset (oset (loadOrStub st (pyGet input "inquiryId"))
          "status" (.s "extracted")) "extractedData" (.obj o)) "extractedAt" (.s now))
          "sender")) = false := by
      rw [hsend2, htr]
      simp
    simp only [stLookup, hcond, Bool.false_eq_true, if_false]
    rw [olookup_oset_ne _ _ _ _ (by decide), olookup_oset_ne _ _ _ _ (by decide),
        olookup_oset_ne _ _ _ _ (by decide)]
  · intro ⟨hstr, hsf⟩
    have hcond : (pyTruthy (pyGet input "sender") &&
        !pyTruthy (pyGet (oset (oset (oset (loadOrStub st (pyGet input "inquiryId"))
          "status" (.s "extracted")) "extractedData" (.obj o)) "extractedAt" (.s now))
          "sender")) = true := by
      rw [hsend2, hstr, hsf]
      simp
    simp only [stLookup, hcond, if_true]
    exact olookup_oset_self _ _ _

/-- Claim C9 witness: the amended frame theorem applied at a store holding a
record with a threadKey and no sender, and an input carrying a truthy
sender: the threadKey is preserved and the input sender is written. -/
theorem c9_success_frame_witness :
    stLookup ((extractHandler
      [("inquiryId", .s "i5"), ("source", .s "email"), ("body", .s "hello"),
       ("sender", .obj [("name", .s "Asha")])]
      (.parsed [("brand", .obj []), ("campaign", .obj [])])
      "2026-01-01T00:00:00"
      (stSet (fun _ => none) (.s "i5")
        [("id", .s "i5"), ("threadKey", .s "t-9")])).store (.s "i5"))
      "threadKey" = some (.s "t-9") ∧
    stLookup ((extractHandler
      [("inquiryId", .s "i5"), ("source", .s "email"), ("body", .s "hello"),
       ("sender", .obj [("name", .s "Asha")])]
      (.parsed [("brand", .obj []), ("campaign", .obj [])])
      "2026-01-01T00:00:00"
      (stSet (fun _ => none) (.s "i5")
        [("id", .s "i5"), ("threadKey", .s "t-9")])).store (.s "i5"))
      "sender" = some (.obj [("name", .s "Asha")]) := by
  have h := c9_success_frame
    [("inquiryId", .s "i5"), ("source", .s "email"), ("body", .s "hello"),
     ("sender", .obj [("name", .s "Asha")])]
    [("brand", .obj []), ("campaign", .obj [])]
    "2026-01-01T00:00:00"
    (stSet (fun _ => none) (.s "i5") [("id", .s "i5"), ("threadKey", .s "t-9")])
    (by decide) (by decide) (by decide)
  refine ⟨(h.1 "threadKey" (by decide)).trans (by decide), (h.2.2 ⟨by decide, by decide⟩)⟩

/-- Claim C10 (confirmed): for every input with schema-conformant sender
whose body field is falsy (missing, null or empty), the ExtractInquiry
handler logs the missing-body warning and returns: no event is emitted, no
exception escapes, the store is untouched (in particular nothing is marked
extraction_failed), and the outcome does not depend on the completion
service at all, which is never contacted. -/
theorem c10_missing_body_noop (input : JObj) (svc : SvcResult) (now : String)
    (st : Store) (hs : senderOk input)
    (hb : pyTruthy (pyGet input "body") = false) :
    (extractHandler input svc now st).emits = [] ∧
    (extractHandler input svc now st).warnedNoBody = true ∧
    (extractHandler input svc now st).raised = none ∧
    (extractHandler input svc now st).store = st ∧
    (∀ svc2, extractHandler input svc now st = extractHandler input svc2 now st) := by
  have hrun : ∀ s, extractHandler input s now st = ⟨[], true, none, st⟩ := by
    intro s
    unfold extractHandler
    simp [extract_guard_false input hs, hb]
  refine ⟨by rw [hrun], by rw [hrun], by rw [hrun], by rw [hrun],
    fun svc2 => by rw [hrun, hrun]⟩

/-- Claim C10 witness: the no-op theorem applied at a concrete input missing
the body field, with a raising completion service and the empty store. -/
theorem c10_missing_body_noop_witness :
    (extractHandler [("inquiryId", .s "i7"), ("source", .s "email")]
      (.raises "net down") "2026-01-01T00:00:00" (fun _ => none)).emits = [] ∧
    (extractHandler [("inquiryId", .s "i7"), ("source", .s "email")]
      (.raises "net down") "2026-01-01T00:00:00" (fun _ => none)).warnedNoBody = true := by
  have h := c10_missing_body_noop [("inquiryId", .s "i7"), ("source", .s "email")]
    (.raises "net down") "2026-01-01T00:00:00" (fun _ => none) (by decide) (by decide)
  exact ⟨h.1, h.2.1⟩

end SocialOps
